import Mathlib

/-!
Shallow embedding of the resilience core of the `threads-go` client SDK:
the error taxonomy (`errors.go`), the rate limiter (`ratelimit.go`), the
HTTP request executor (`HTTPClient.Do` and its helpers), the container
publish state machine (`waitForContainerReady`,
`waitForContainerProcessing` in `types.go`) and the reply-publish path
(`CreateReply` in `posts_replies.go`).

Modelling conventions:
* Instants and durations are `Int` nanoseconds (Go's `time.Time` /
  `time.Duration`); `second`, `minute`, `hour` are the corresponding
  constants.  A Go `time.Time` that can be the zero value is modelled as
  `Option Int` (`none` = zero value, so `IsZero` becomes `Option.isNone`).
* `float64` configuration factors (`BackoffFactor`, `backoffMultiplier`)
  are modelled as `ℚ`; the `time.Duration(float64(d) * f)` conversion
  truncates, which for non-negative values is `Int.floor`.
* Go errors are a tree: a typed threads error, a `fmt.Errorf` wrapper
  produced with `%w` (which `errors.As` unwraps), a plain formatted
  error (no typed cause), or `ctx.Err()`.
* A caller-supplied `context.Context` is modelled by the predicate
  "is the context cancelled at this suspension point" (`Bool`, or
  `Nat → Bool` indexed by the attempt at which the sleep happens).
* The remote side of one physical HTTP call is an abstract `Outcome`
  (transport failure or a response); response bodies keep both their raw
  text and the result of `json.Unmarshal` into the error envelope,
  since the source consults both.
-/

namespace ThreadsGo

/-- One nanosecond-denominated second (`time.Second`). -/
def second : Int := 1000000000

/-- `time.Minute`. -/
def minute : Int := 60 * second

/-- `time.Hour`. -/
def hour : Int := 3600 * second

/-! ## Error taxonomy (`errors.go`) -/

/-- The five typed error kinds of `errors.go`, with the fields their Go
structs carry beyond the common `BaseError` (code, message, type tag,
details). -/
inductive ThreadsError where
  /-- `AuthenticationError` -/
  | authentication (code : Int) (message details : String)
  /-- `RateLimitError`; `retryAfter` is the `RetryAfter` duration. -/
  | rateLimit (code : Int) (message details : String) (retryAfter : Int)
  /-- `ValidationError`; `field` is the offending field name. -/
  | validation (code : Int) (message details field : String)
  /-- `NetworkError`; `temporary` is the transient flag. -/
  | network (code : Int) (message details : String) (temporary : Bool)
  /-- `APIError`; `requestID` is the correlation id. -/
  | api (code : Int) (message details requestID : String)
deriving DecidableEq, Repr

/-- A Go `error` value as the core produces it: a typed threads error, a
`fmt.Errorf("...: %w", inner)` wrapper (transparent to `errors.As`), a
plain formatted error with no typed cause, or `ctx.Err()`. -/
inductive GoError where
  | threads (e : ThreadsError)
  | wrapped (msg : String) (inner : GoError)
  | plain (msg : String)
  | ctxCanceled
deriving DecidableEq, Repr

/-- `IsAuthenticationError`: `errors.As(err, &*AuthenticationError)`,
which unwraps `%w` chains. -/
def IsAuthenticationError : GoError → Bool
  | .threads (.authentication ..) => true
  | .wrapped _ inner => IsAuthenticationError inner
  | _ => false

/-- `IsRateLimitError`. -/
def IsRateLimitError : GoError → Bool
  | .threads (.rateLimit ..) => true
  | .wrapped _ inner => IsRateLimitError inner
  | _ => false

/-- `IsValidationError`. -/
def IsValidationError : GoError → Bool
  | .threads (.validation ..) => true
  | .wrapped _ inner => IsValidationError inner
  | _ => false

/-- `IsNetworkError`. -/
def IsNetworkError : GoError → Bool
  | .threads (.network ..) => true
  | .wrapped _ inner => IsNetworkError inner
  | _ => false

/-- `IsAPIError`. -/
def IsAPIError : GoError → Bool
  | .threads (.api ..) => true
  | .wrapped _ inner => IsAPIError inner
  | _ => false

/-- Number of the five kind predicates an error satisfies. -/
def kindCount (e : GoError) : Nat :=
  (if IsAuthenticationError e then 1 else 0) +
  (if IsRateLimitError e then 1 else 0) +
  (if IsValidationError e then 1 else 0) +
  (if IsNetworkError e then 1 else 0) +
  (if IsAPIError e then 1 else 0)

/-- `errors.As` finds at most one typed kind in any error: the chain of
`%w` wrappers ends in exactly one leaf. -/
theorem kindCount_le_one (e : GoError) : kindCount e ≤ 1 := by
  induction e with
  | threads te => cases te <;> simp [kindCount, IsAuthenticationError,
      IsRateLimitError, IsValidationError, IsNetworkError, IsAPIError]
  | wrapped msg inner ih =>
      simpa [kindCount, IsAuthenticationError, IsRateLimitError,
        IsValidationError, IsNetworkError, IsAPIError] using ih
  | plain msg => simp [kindCount, IsAuthenticationError, IsRateLimitError,
      IsValidationError, IsNetworkError, IsAPIError]
  | ctxCanceled => simp [kindCount, IsAuthenticationError, IsRateLimitError,
      IsValidationError, IsNetworkError, IsAPIError]

/-! ## Rate-limit header snapshot (`HTTPClient.parseRateLimitHeaders`) -/

/-- The rate-limit related response headers, each `some v` when the
header is present and its value parses as an integer (`strconv.Atoi` /
`strconv.ParseInt` succeed), `none` otherwise. -/
structure Headers where
  xRateLimitLimit : Option Int
  xRateLimitRemaining : Option Int
  xRateLimitReset : Option Int
  retryAfter : Option Int
deriving DecidableEq, Repr

/-- `RateLimitInfo`: `Limit`/`Remaining` are plain ints (zero value 0),
`Reset` is a `time.Time` (zero value = `none`), `RetryAfter` is a
duration. -/
structure RateLimitInfo where
  limit : Int
  remaining : Int
  reset : Option Int
  retryAfter : Int
deriving DecidableEq, Repr

/-- `parseRateLimitHeaders`: fill each field from its header when
present and parseable; return `nil` when `Limit == 0 && Remaining == 0
&& Reset.IsZero()` (note: a snapshot that only carries `Retry-After` is
dropped by this check). -/
def parseRateLimitHeaders (h : Headers) : Option RateLimitInfo :=
  let info : RateLimitInfo :=
    { limit := h.xRateLimitLimit.getD 0
      remaining := h.xRateLimitRemaining.getD 0
      reset := (h.xRateLimitReset.map fun t => t * second)
      retryAfter := (h.retryAfter.getD 0) * second }
  if info.limit = 0 ∧ info.remaining = 0 ∧ info.reset = none then none
  else some info

/-! ## Rate limiter (`ratelimit.go`) -/

/-- The mutable fields of `RateLimiter` (the mutex, queue channel and
logger carry no state the claims depend on and are omitted;
`backoffMultiplier` is a `float64`, modelled as `ℚ`). -/
structure RateLimiter where
  limit : Int
  remaining : Int
  resetTime : Int
  lastRequestTime : Int
  backoffMultiplier : ℚ
  maxBackoff : Int
  rateLimited : Bool
  lastRateLimitTime : Int
deriving DecidableEq, Repr

/-- `ShouldWait`: clear `rateLimited` when `time.Now().After(resetTime)`,
then report `rateLimited && time.Now().Before(resetTime)`.  Returns the
mutated state together with the answer. -/
def ShouldWait (rl : RateLimiter) (now : Int) : RateLimiter × Bool :=
  let rl := if now > rl.resetTime then { rl with rateLimited := false } else rl
  (rl, rl.rateLimited && decide (now < rl.resetTime))

/-- `calculateBackoff`: base delay 1s; when the last request was less
than a minute ago, `time.Duration(float64(baseDelay) * backoffMultiplier)`
capped at `maxBackoff`, else the base delay. -/
def calculateBackoff (rl : RateLimiter) (now : Int) : Int :=
  let baseDelay := second
  if now - rl.lastRequestTime < minute then
    let backoff : Int := ⌊(baseDelay : ℚ) * rl.backoffMultiplier⌋
    if backoff > rl.maxBackoff then rl.maxBackoff else backoff
  else baseDelay

/-- `Wait(ctx)`: reset the window if it has passed; return at once when
not rate limited; otherwise sleep until `resetTime` (stretched by
`calculateBackoff` when the last 429 was under a minute ago), returning
`ctx.Err()` if the context is cancelled during the sleep and clearing
`rateLimited` after a completed sleep.  `cancelled` says whether the
context gets cancelled before the sleep would end. -/
def Wait (rl : RateLimiter) (now : Int) (cancelled : Bool) :
    RateLimiter × Option GoError :=
  if now > rl.resetTime then
    ({ rl with remaining := rl.limit, resetTime := now + hour,
               rateLimited := false }, none)
  else if !rl.rateLimited then
    ({ rl with lastRequestTime := now }, none)
  else
    let waitTime := rl.resetTime - now
    let waitTime :=
      if now - rl.lastRateLimitTime < minute then
        let backoffTime := calculateBackoff rl now
        if backoffTime > waitTime then backoffTime else waitTime
      else waitTime
    if cancelled then (rl, some .ctxCanceled)
    else ({ rl with rateLimited := false,
                    lastRequestTime := now + waitTime }, none)

/-- `UpdateFromHeaders`: a `nil` info is ignored; otherwise `limit` is
overwritten only when `info.Limit > 0`, `remaining` only when
`info.Remaining >= 0`, and `resetTime` only when `info.Reset` is not the
zero time. -/
def UpdateFromHeaders (rl : RateLimiter) (info : Option RateLimitInfo) :
    RateLimiter :=
  match info with
  | none => rl
  | some i =>
      let rl := if i.limit > 0 then { rl with limit := i.limit } else rl
      let rl := if i.remaining ≥ 0 then { rl with remaining := i.remaining } else rl
      match i.reset with
      | some t => { rl with resetTime := t }
      | none => rl

/-- `MarkRateLimited(resetTime)`: set `rateLimited`, stamp
`lastRateLimitTime`, and overwrite `resetTime` when the argument is not
the zero time. -/
def MarkRateLimited (rl : RateLimiter) (now : Int) (resetTime : Option Int) :
    RateLimiter :=
  let rl := { rl with rateLimited := true, lastRateLimitTime := now }
  match resetTime with
  | some t => { rl with resetTime := t }
  | none => rl

/-! ## Request executor (`HTTPClient` in the unnamed http client file) -/

/-- The error envelope `{"error": {"message", "type", "code"}}` that
`createErrorFromResponse` tries to `json.Unmarshal` from the body.
`Resp.errBody` is `some` exactly when the unmarshal succeeds and the
parsed `Message` is non-empty (the only case the source uses it). -/
structure ErrBody where
  message : String
  code : Int
deriving DecidableEq, Repr

/-- The `Response` wrapper: status code, raw body text, the parsed error
envelope (see `ErrBody`), the `X-Fb-Request-Id` header and the parsed
rate-limit header snapshot. -/
structure Resp where
  statusCode : Int
  body : String
  errBody : Option ErrBody
  requestID : String
  rateLimit : Option RateLimitInfo
deriving DecidableEq, Repr

/-- `wrapNetworkError`: timeout ⇒ temporary; else the transport's
`Temporary()` flag; else permanent. -/
def wrapNetworkError (timeout temporary : Bool) (msg : String) : GoError :=
  if timeout then .threads (.network 0 "Request timeout" msg true)
  else if temporary then .threads (.network 0 "Temporary network error" msg true)
  else .threads (.network 0 "Network error" msg false)

/-- The message/code extraction at the top of `createErrorFromResponse`:
default `("HTTP <status>", status)`, overridden when a non-empty body
parses to an envelope with non-empty message (and the code when it is
non-zero). -/
def respMessageCode (resp : Resp) : String × Int :=
  if resp.body.length > 0 then
    match resp.errBody with
    | some eb =>
        (eb.message, if eb.code ≠ 0 then eb.code else resp.statusCode)
    | none => ("HTTP " ++ toString resp.statusCode, resp.statusCode)
  else ("HTTP " ++ toString resp.statusCode, resp.statusCode)

/-- The `details` string: the body, truncated to 500 with `"..."`. -/
def respDetails (resp : Resp) : String :=
  if resp.body.length > 500 then (resp.body.take 500) ++ "..." else resp.body

/-- `createErrorFromResponse`: status-driven classification into the
taxonomy; the 429 branch additionally derives `retryAfter` (only from
the snapshot's `RetryAfter`) and calls `MarkRateLimited` with the
snapshot's reset time, or `now + retryAfter` when that is zero.  Returns
the error together with the mutated rate limiter. -/
def createErrorFromResponse (resp : Resp) (rl : RateLimiter) (now : Int) :
    GoError × RateLimiter :=
  let mc := respMessageCode resp
  let message := mc.1
  let errorCode := mc.2
  let details := respDetails resp
  if resp.statusCode = 401 ∨ resp.statusCode = 403 then
    (.threads (.authentication errorCode message details), rl)
  else if resp.statusCode = 429 then
    let retryAfter : Int :=
      match resp.rateLimit with
      | some i => if i.retryAfter > 0 then i.retryAfter else 0
      | none => 0
    let resetTime : Option Int :=
      match resp.rateLimit with
      | some i => i.reset
      | none => none
    let resetTime : Int :=
      match resetTime with
      | some t => t
      | none => now + retryAfter
    (.threads (.rateLimit errorCode message details retryAfter),
     MarkRateLimited rl now (some resetTime))
  else if resp.statusCode = 400 ∨ resp.statusCode = 422 then
    (.threads (.validation errorCode message details ""), rl)
  else
    (.threads (.api errorCode message details resp.requestID), rl)

/-- `errors.As(err, &*NetworkError)` returning the `Temporary` flag. -/
def asNetworkTemporary : GoError → Option Bool
  | .threads (.network _ _ _ t) => some t
  | .wrapped _ inner => asNetworkTemporary inner
  | _ => none

/-- `errors.As(err, &*APIError)` returning the `Code` field. -/
def asAPICode : GoError → Option Int
  | .threads (.api c _ _ _) => some c
  | .wrapped _ inner => asAPICode inner
  | _ => none

/-- `isRetryableError`: rate-limit errors, temporary network errors, and
API errors with a 5xx `Code`. -/
def isRetryableError (e : GoError) : Bool :=
  if IsRateLimitError e then true
  else
    match asNetworkTemporary e with
    | some t => t
    | none =>
        match asAPICode e with
        | some c => decide (500 ≤ c ∧ c < 600)
        | none => false

/-- `shouldRetryStatus`: 429 and the retryable 5xx statuses. -/
def shouldRetryStatus (statusCode : Int) : Bool :=
  statusCode = 429 ∨ statusCode = 500 ∨ statusCode = 502 ∨
    statusCode = 503 ∨ statusCode = 504

/-- `RetryConfig` (validated: `MaxRetries ≥ 0`, so `Nat`); the
`float64` backoff factor as `ℚ`. -/
structure RetryConfig where
  maxRetries : Nat
  initialDelay : Int
  maxDelay : Int
  backoffFactor : ℚ
deriving DecidableEq, Repr

/-- The backoff update after a retry sleep:
`delay = time.Duration(float64(delay) * BackoffFactor)` (truncation =
floor for non-negative values), capped at `MaxDelay`. -/
def nextDelay (cfg : RetryConfig) (delay : Int) : Int :=
  let d : Int := ⌊(delay : ℚ) * cfg.backoffFactor⌋
  if d > cfg.maxDelay then cfg.maxDelay else d

/-- `retryDelay cfg n` is the backoff delay slept before the (n+1)-st
attempt (the n-th retry): `InitialDelay` first, then the `nextDelay`
growth the loop applies after each sleep. -/
def retryDelay (cfg : RetryConfig) : Nat → Int
  | 0 => cfg.initialDelay
  | n + 1 => nextDelay cfg (retryDelay cfg n)

/-- One physical call's outcome at the boundary `executeRequest` talks
to: either a transport failure (with the transport's `Timeout()` /
`Temporary()` signals) or an HTTP response. -/
inductive Outcome where
  | transport (timeout temporary : Bool) (msg : String)
  | http (resp : Resp)
deriving DecidableEq, Repr

/-- The value `Do` returns plus the observations the claims are about:
number of physical calls, the snapshots fed to `UpdateFromHeaders`, and
the final rate-limiter state. -/
structure DoResult where
  resp : Option Resp
  err : Option GoError
  calls : Nat
  fed : List RateLimitInfo
  rl : RateLimiter
deriving Repr

/-- The retry loop of `HTTPClient.Do`.  `fuel` counts the attempts still
allowed (`maxRetries + 1` at the start); `attempt` is the Go loop index;
`cancelled a` says the context is cancelled during the backoff sleep
before attempt `a`.  On each attempt: sleep (cancellable) and grow the
delay when `attempt > 0`; execute the physical call; transport failures
and HTTP ≥ 400 responses are classified (`executeRequest` returns them
as errors) and retried exactly when `isRetryableError`; otherwise the
snapshot is fed to `UpdateFromHeaders` and the response returned
(`shouldRetryStatus` is re-checked as in the source, though it can no
longer hold below 400). -/
def doLoop (cfg : RetryConfig) (outcomes : Nat → Outcome)
    (cancelled : Nat → Bool) (now : Int) :
    Nat → Nat → Int → Option GoError → Nat → List RateLimitInfo →
    RateLimiter → DoResult
  | 0, _attempt, _delay, lastErr, calls, fed, rl =>
      ⟨none,
       some (.wrapped ("request failed after " ++ toString cfg.maxRetries
          ++ " retries") (lastErr.getD (.plain "nil"))),
       calls, fed, rl⟩
  | fuel + 1, attempt, delay, lastErr, calls, fed, rl =>
      if attempt > 0 ∧ cancelled attempt then
        ⟨none, some .ctxCanceled, calls, fed, rl⟩
      else
        let delay' := if attempt > 0 then nextDelay cfg delay else delay
        match outcomes attempt with
        | .transport timeout temporary msg =>
            let e := wrapNetworkError timeout temporary msg
            if !isRetryableError e then ⟨none, some e, calls + 1, fed, rl⟩
            else doLoop cfg outcomes cancelled now fuel (attempt + 1) delay'
              (some e) (calls + 1) fed rl
        | .http resp =>
            if resp.statusCode ≥ 400 then
              let er := createErrorFromResponse resp rl now
              if !isRetryableError er.1 then
                ⟨none, some er.1, calls + 1, fed, er.2⟩
              else doLoop cfg outcomes cancelled now fuel (attempt + 1) delay'
                (some er.1) (calls + 1) fed er.2
            else
              let fed' := match resp.rateLimit with
                | some i => fed ++ [i]
                | none => fed
              let rl' := UpdateFromHeaders rl resp.rateLimit
              if shouldRetryStatus resp.statusCode then
                let er := createErrorFromResponse resp rl' now
                doLoop cfg outcomes cancelled now fuel (attempt + 1) delay'
                  (some er.1) (calls + 1) fed' er.2
              else ⟨some resp, none, calls + 1, fed', rl'⟩

/-- `HTTPClient.Do`: the pre-loop rate-limiter gate (`ShouldWait` then
`Wait`, the only pre-emptive wait) followed by the retry loop.
`preCancelled` is the context's cancellation during the rate-limit wait;
`cancelled` during the backoff sleeps. -/
def Do (cfg : RetryConfig) (rl0 : RateLimiter) (now : Int)
    (preCancelled : Bool) (cancelled : Nat → Bool)
    (outcomes : Nat → Outcome) : DoResult :=
  let sw := ShouldWait rl0 now
  if sw.2 then
    match Wait sw.1 now preCancelled with
    | (rl2, some e) =>
        ⟨none, some (.wrapped "rate limiter wait failed" e), 0, [], rl2⟩
    | (rl2, none) =>
        doLoop cfg outcomes cancelled now (cfg.maxRetries + 1) 0
          cfg.initialDelay none 0 [] rl2
  else
    doLoop cfg outcomes cancelled now (cfg.maxRetries + 1) 0
      cfg.initialDelay none 0 [] sw.1

/-! ## Container publish state machine (`types.go`) -/

/-- Result of one `GetContainerStatus` call at the boundary
`waitForContainerReady` consumes: `ok status errorMessage` on success,
`err e` when the call returned an error (validation guard, token
refresh, transport/HTTP failure, parse failure…). -/
inductive StatusFetch where
  | ok (status errorMessage : String)
  | err (e : GoError)
deriving DecidableEq, Repr

/-- What `waitForContainerReady` returns plus the observations the
claims are about: how many status fetches and poll-interval sleeps the
run performed (`err = none` means success). -/
structure WaitResult where
  fetches : Nat
  sleeps : Nat
  err : Option GoError
deriving DecidableEq, Repr

/-- The timeout error ending `waitForContainerReady`. -/
def waitReadyTimeoutErr (maxAttempts : Int) : GoError :=
  .plain ("timeout waiting for container to be ready after "
    ++ toString maxAttempts ++ " attempts")

/-- The loop body of `waitForContainerReady`: at each attempt fetch the
status; a fetch error aborts at once (wrapped); `FINISHED` succeeds;
`ERROR`/`EXPIRED` fail at once with plain formatted errors;
`IN_PROGRESS`, `PUBLISHED` and any unrecognized status sleep
`pollInterval` and continue; exhausting the attempts yields the timeout
error.  `fuel` is the number of attempts left, `attempt` the Go loop
index (also the number of fetches and sleeps performed so far). -/
def waitReadyAux (fetch : Nat → StatusFetch) (maxAttempts : Int) :
    Nat → Nat → WaitResult
  | 0, attempt => ⟨attempt, attempt, some (waitReadyTimeoutErr maxAttempts)⟩
  | fuel + 1, attempt =>
      match fetch attempt with
      | .err e =>
          ⟨attempt + 1, attempt,
           some (.wrapped "failed to check container status" e)⟩
      | .ok status errorMessage =>
          if status = "FINISHED" then ⟨attempt + 1, attempt, none⟩
          else if status = "ERROR" then
            ⟨attempt + 1, attempt,
             some (.plain (if errorMessage ≠ "" then
                "container processing failed: " ++ errorMessage
              else "container processing failed with error status"))⟩
          else if status = "EXPIRED" then
            ⟨attempt + 1, attempt,
             some (.plain "container expired before it could be published")⟩
          else waitReadyAux fetch maxAttempts fuel (attempt + 1)

/-- `waitForContainerReady(ctx, containerID, maxAttempts, pollInterval)`.
The sleeps are bare `time.Sleep` calls and the loop never reads
`ctx.Done()` (the context is forwarded only into `GetContainerStatus`,
whose HTTP call is issued without it), so the `cancelled` argument —
whether the context is cancelled at each poll tick — is unused, exactly
as in the source. -/
def waitForContainerReady (cancelled : Nat → Bool)
    (fetch : Nat → StatusFetch) (maxAttempts : Int) : WaitResult :=
  waitReadyAux fetch maxAttempts maxAttempts.toNat 0

/-- One attempt's input at the boundary `waitForContainerProcessing`
consumes (the video path): the context's cancellation state is checked
at the top of each iteration, then the raw `GET` either errors, returns
a non-200 status, returns a 200 whose body fails to parse, or yields a
parsed `(status, error_message)` pair. -/
inductive ProcFetch where
  | getErr (e : GoError)
  | non200 (code : Int) (body : String)
  | parseErr (msg : String)
  | ok (status errorMessage : String)
deriving DecidableEq, Repr

/-- The loop of `waitForContainerProcessing` over Go attempts
`1..maxAttempts` (`VideoProcessingMaxAttempts`); `cancelled i` is the
context's state at the top of the iteration for attempt `i+1`; `fetch i`
that attempt's outcome.  Failed checks (transport error, non-200, parse
failure) and `IN_PROGRESS`/unknown statuses sleep and continue while
`attempt < maxAttempts`, each with its own terminal error on the last
attempt; `FINISHED`/`PUBLISHED` succeed; `ERROR`/`EXPIRED` fail at
once. -/
def waitProcAux (cancelled : Nat → Bool) (fetch : Nat → ProcFetch)
    (maxAttempts : Nat) : Nat → Nat → WaitResult
  | 0, attempt =>
      ⟨attempt, attempt,
       some (.threads (.api 408 "Video processing timeout"
        ("container processing timed out after " ++ toString maxAttempts
          ++ " attempts") ""))⟩
  | fuel + 1, attempt =>
      if cancelled attempt then ⟨attempt, attempt, some .ctxCanceled⟩
      else
        match fetch attempt with
        | .getErr e =>
            if attempt + 1 < maxAttempts then
              waitProcAux cancelled fetch maxAttempts fuel (attempt + 1)
            else
              ⟨attempt + 1, attempt,
               some (.wrapped ("container status check failed after "
                ++ toString maxAttempts ++ " attempts") e)⟩
        | .non200 code body =>
            if attempt + 1 < maxAttempts then
              waitProcAux cancelled fetch maxAttempts fuel (attempt + 1)
            else
              ⟨attempt + 1, attempt,
               some (.threads (.api code "Container status check failed"
                body ""))⟩
        | .parseErr msg =>
            if attempt + 1 < maxAttempts then
              waitProcAux cancelled fetch maxAttempts fuel (attempt + 1)
            else
              ⟨attempt + 1, attempt,
               some (.wrapped "failed to parse container status response"
                (.plain msg))⟩
        | .ok status errorMessage =>
            if status = "FINISHED" then ⟨attempt + 1, attempt, none⟩
            else if status = "PUBLISHED" then ⟨attempt + 1, attempt, none⟩
            else if status = "IN_PROGRESS" then
              if attempt + 1 < maxAttempts then
                waitProcAux cancelled fetch maxAttempts fuel (attempt + 1)
              else
                ⟨attempt + 1, attempt,
                 some (.threads (.api 408 "Video processing timeout"
                  ("still processing after " ++ toString maxAttempts
                    ++ " minutes") ""))⟩
            else if status = "ERROR" then
              ⟨attempt + 1, attempt,
               some (.threads (.api 500 "Video processing failed"
                ("failed to process: " ++ (if errorMessage ≠ "" then
                  errorMessage else "Unknown error")) ""))⟩
            else if status = "EXPIRED" then
              ⟨attempt + 1, attempt,
               some (.threads (.api 410 "Container expired"
                "not published within 24 hours" ""))⟩
            else
              if attempt + 1 < maxAttempts then
                waitProcAux cancelled fetch maxAttempts fuel (attempt + 1)
              else
                ⟨attempt + 1, attempt,
                 some (.threads (.api 500 "Unknown container status"
                  ("unknown status: " ++ status) ""))⟩

/-- `waitForContainerProcessing(ctx, containerID)`: the loop above run
for `VideoProcessingMaxAttempts` attempts (a package constant whose
definition lives outside the embedded files; kept as a parameter). -/
def waitForContainerProcessing (cancelled : Nat → Bool)
    (fetch : Nat → ProcFetch) (maxAttempts : Nat) : WaitResult :=
  waitProcAux cancelled fetch maxAttempts maxAttempts 0

/-! ## Reply publishing (`posts_replies.go`) -/

/-- `strings.TrimSpace`: drop leading and trailing whitespace. -/
def trimSpace (s : String) : String :=
  ⟨((s.data.dropWhile Char.isWhitespace).reverse.dropWhile
      Char.isWhitespace).reverse⟩

/-- `PostContent` restricted to the fields `CreateReply` reads. -/
structure PostContent where
  text : String
  replyTo : String
  mediaType : String
deriving DecidableEq, Repr

/-- The collaborators `CreateReply` calls, abstracted at their
boundary: the token check, container creation and container publishing
(`publishContainer` + `GetPost` collapsed to their result). -/
structure ReplyEnv where
  tokenErr : Option GoError
  createContainer : Except GoError String
  publish : Except GoError String

/-- `CreateReply(ctx, content)`: nil/empty-target validation, token
check, container creation (wrapping failures), then the fixed
`ReplyPublishDelay` wait in a `select` with `ctx.Done()` — `cancelled`
says the context is cancelled during that fixed delay — and finally the
publish call (wrapping failures).  On success returns the post id. -/
def CreateReply (content : Option PostContent) (cancelled : Bool)
    (env : ReplyEnv) : Except GoError String :=
  match content with
  | none =>
      .error (.threads (.validation 400 "Content cannot be nil"
        "PostContent is required" "content"))
  | some content =>
      if trimSpace content.replyTo = "" then
        .error (.threads (.validation 400 "Reply target is required"
          "Must specify reply_to_id" "reply_to"))
      else
        match env.tokenErr with
        | some e => .error e
        | none =>
            match env.createContainer with
            | .error e =>
                .error (.wrapped "failed to create reply container" e)
            | .ok _containerID =>
                if cancelled then .error .ctxCanceled
                else
                  match env.publish with
                  | .error e => .error (.wrapped "failed to publish reply" e)
                  | .ok post => .ok post

/-! ## Helper lemmas about the container polling loops -/

/-- A fetch result on which `waitForContainerReady`'s loop sleeps and
continues (everything except `FINISHED`, `ERROR`, `EXPIRED` and fetch
errors). -/
def continuesPolling : StatusFetch → Prop
  | .ok s _ => s ≠ "FINISHED" ∧ s ≠ "ERROR" ∧ s ≠ "EXPIRED"
  | .err _ => False

instance : ∀ f, Decidable (continuesPolling f)
  | .ok s _ =>
      inferInstanceAs (Decidable (s ≠ "FINISHED" ∧ s ≠ "ERROR" ∧ s ≠ "EXPIRED"))
  | .err _ => inferInstanceAs (Decidable False)

theorem waitReadyAux_skip (fetch : Nat → StatusFetch) (ma : Int)
    (fuel a : Nat) (h : continuesPolling (fetch a)) :
    waitReadyAux fetch ma (fuel + 1) a = waitReadyAux fetch ma fuel (a + 1) := by
  unfold waitReadyAux
  cases hf : fetch a with
  | err e => rw [hf] at h; exact absurd h (by simp [continuesPolling])
  | ok s m =>
      rw [hf] at h
      obtain ⟨h1, h2, h3⟩ := h
      simp [h1, h2, h3]
      cases fuel <;> simp [waitReadyAux]

theorem waitReadyAux_skipN (fetch : Nat → StatusFetch) (ma : Int)
    (n : Nat) : ∀ fuel a, (∀ k, k < n → continuesPolling (fetch (a + k))) →
    waitReadyAux fetch ma (n + fuel) a = waitReadyAux fetch ma fuel (a + n) := by
  induction n with
  | zero => intro fuel a _; rw [Nat.zero_add, Nat.add_zero]
  | succ m ih =>
      intro fuel a h
      have hstep : continuesPolling (fetch a) := by
        simpa using h 0 (Nat.succ_pos m)
      have : m + 1 + fuel = (m + fuel) + 1 := by omega
      rw [this, waitReadyAux_skip fetch ma (m + fuel) a hstep]
      have := ih fuel (a + 1) (fun k hk => by
        have := h (k + 1) (by omega)
        simpa [Nat.add_assoc, Nat.add_comm 1 k] using this)
      simpa [Nat.add_assoc, Nat.add_comm 1 m] using this

/-! ## C10 -/

/-- C10: calling `waitForContainerReady` with a non-positive attempt
budget performs zero status fetches and returns the timeout error that
names that attempt count. -/
theorem C10_nonpositive_budget_times_out (cancelled : Nat → Bool)
    (fetch : Nat → StatusFetch) (ma : Int) (h : ma ≤ 0) :
    waitForContainerReady cancelled fetch ma
      = ⟨0, 0, some (waitReadyTimeoutErr ma)⟩ := by
  unfold waitForContainerReady
  rw [Int.toNat_of_nonpos h]
  rfl

/-- Witness for C10 at `maxAttempts = -1`, with a fetch stream that
would succeed at once were it ever consulted. -/
theorem C10_witness :
    (-1 : Int) ≤ 0 ∧
    waitForContainerReady (fun _ => false) (fun _ => .ok "FINISHED" "") (-1)
      = ⟨0, 0, some (waitReadyTimeoutErr (-1))⟩ :=
  ⟨by decide,
   C10_nonpositive_budget_times_out (fun _ => false)
     (fun _ => .ok "FINISHED" "") (-1) (by decide)⟩

/-! ## C1 -/

/-- C1 counterexample: a container that reports `PUBLISHED` on every
fetch does NOT stop `waitForContainerReady`: with an attempt budget of
2 the loop polls twice and returns the timeout error instead of
succeeding at the first attempt, because the source groups `PUBLISHED`
with `IN_PROGRESS` ("wait and retry"). -/
theorem C1_counterexample :
    waitForContainerReady (fun _ => false) (fun _ => .ok "PUBLISHED" "") 2
      = ⟨2, 2, some (waitReadyTimeoutErr 2)⟩ := by decide

/-- C1 amended: in `waitForContainerReady` a fetch returning `FINISHED`
stops the loop with success at that attempt, but a fetch returning
`PUBLISHED` is treated like `IN_PROGRESS` and polling continues (an
always-`PUBLISHED` container runs into the timeout); only the video
path `waitForContainerProcessing` also treats `PUBLISHED` as success. -/
theorem C1_finished_stops_published_continues :
    (∀ (cancelled : Nat → Bool) (fetch : Nat → StatusFetch) (ma : Int)
       (n : Nat) (msg : String), (n : Int) < ma →
       (∀ k, k < n → continuesPolling (fetch k)) →
       fetch n = .ok "FINISHED" msg →
       waitForContainerReady cancelled fetch ma = ⟨n + 1, n, none⟩) ∧
    (∀ (cancelled : Nat → Bool) (ma : Int) (msg : String), 0 < ma →
       waitForContainerReady cancelled (fun _ => .ok "PUBLISHED" msg) ma
         = ⟨ma.toNat, ma.toNat, some (waitReadyTimeoutErr ma)⟩) ∧
    (∀ (cancelled : Nat → Bool) (fetch : Nat → ProcFetch)
       (maxAttempts : Nat) (msg : String), 0 < maxAttempts →
       cancelled 0 = false → fetch 0 = .ok "PUBLISHED" msg →
       waitForContainerProcessing cancelled fetch maxAttempts
         = ⟨1, 0, none⟩) := by
  refine ⟨?_, ?_, ?_⟩
  · intro cancelled fetch ma n msg hlt hpre hn
    unfold waitForContainerReady
    have hn' : n < ma.toNat := by omega
    obtain ⟨fuel, hfuel⟩ : ∃ fuel, ma.toNat = n + (fuel + 1) :=
      ⟨ma.toNat - n - 1, by omega⟩
    rw [hfuel, waitReadyAux_skipN fetch ma n (fuel + 1) 0
      (fun k hk => by simpa using hpre k hk)]
    unfold waitReadyAux
    simp [hn]
  · intro cancelled ma msg hma
    unfold waitForContainerReady
    have h := waitReadyAux_skipN (fun _ => .ok "PUBLISHED" msg) ma
      ma.toNat 0 0 (fun k _ => by simp [continuesPolling])
    simpa [waitReadyAux] using h
  · intro cancelled fetch maxAttempts msg hpos hc0 hf0
    unfold waitForContainerProcessing
    obtain ⟨fuel, hfuel⟩ : ∃ fuel, maxAttempts = fuel + 1 :=
      ⟨maxAttempts - 1, by omega⟩
    rw [hfuel]
    unfold waitProcAux
    simp [hc0, hf0]

/-- Witness for the amended C1: a `IN_PROGRESS, IN_PROGRESS, FINISHED`
container succeeds at the third poll; an all-`PUBLISHED` container with
budget 2 times out; a video container reporting `PUBLISHED` at the
first check succeeds immediately. -/
theorem C1_witness :
    waitForContainerReady (fun _ => false)
      (fun n => if n < 2 then .ok "IN_PROGRESS" "" else .ok "FINISHED" "") 30
      = ⟨3, 2, none⟩ ∧
    waitForContainerReady (fun _ => false) (fun _ => .ok "PUBLISHED" "") 2
      = ⟨2, 2, some (waitReadyTimeoutErr 2)⟩ ∧
    waitForContainerProcessing (fun _ => false)
      (fun _ => .ok "PUBLISHED" "") 60 = ⟨1, 0, none⟩ :=
  ⟨C1_finished_stops_published_continues.1 (fun _ => false)
      (fun n => if n < 2 then .ok "IN_PROGRESS" "" else .ok "FINISHED" "")
      30 2 "" (by decide)
      (fun k hk => by interval_cases k <;> simp [continuesPolling])
      (by decide),
   C1_finished_stops_published_continues.2.1 (fun _ => false) 2 ""
      (by decide),
   C1_finished_stops_published_continues.2.2 (fun _ => false)
      (fun _ => .ok "PUBLISHED" "") 60 "" (by decide) (by decide)
      (by decide)⟩

/-! ## C2 -/

/-- An attempt of `waitForContainerProcessing` on which the loop sleeps
and continues when attempts remain: failed checks and
non-terminal statuses. -/
def procContinues (maxAttempts : Nat) (cancelled : Nat → Bool)
    (fetch : Nat → ProcFetch) (k : Nat) : Prop :=
  cancelled k = false ∧ k + 1 < maxAttempts ∧
    (match fetch k with
     | .getErr _ => True
     | .non200 _ _ => True
     | .parseErr _ => True
     | .ok s _ => s ≠ "FINISHED" ∧ s ≠ "PUBLISHED" ∧ s ≠ "ERROR" ∧
         s ≠ "EXPIRED")

theorem waitProcAux_skip (cancelled : Nat → Bool) (fetch : Nat → ProcFetch)
    (N fuel a : Nat) (h : procContinues N cancelled fetch a) :
    waitProcAux cancelled fetch N (fuel + 1) a
      = waitProcAux cancelled fetch N fuel (a + 1) := by
  obtain ⟨hc, hlt, hk⟩ := h
  cases hf : fetch a with
  | getErr e => cases fuel <;> simp [waitProcAux, hc, hlt, hf]
  | non200 code body => cases fuel <;> simp [waitProcAux, hc, hlt, hf]
  | parseErr msg => cases fuel <;> simp [waitProcAux, hc, hlt, hf]
  | ok s m =>
      rw [hf] at hk
      obtain ⟨h1, h2, h3, h4⟩ := hk
      cases fuel <;> simp [waitProcAux, hc, hlt, hf, h1, h2, h3, h4]

theorem waitProcAux_skipN (cancelled : Nat → Bool) (fetch : Nat → ProcFetch)
    (N : Nat) (n : Nat) : ∀ fuel a,
    (∀ k, k < n → procContinues N cancelled fetch (a + k)) →
    waitProcAux cancelled fetch N (n + fuel) a
      = waitProcAux cancelled fetch N fuel (a + n) := by
  induction n with
  | zero => intro fuel a _; rw [Nat.zero_add, Nat.add_zero]
  | succ m ih =>
      intro fuel a h
      have hstep : procContinues N cancelled fetch a := by
        simpa using h 0 (Nat.succ_pos m)
      have : m + 1 + fuel = (m + fuel) + 1 := by omega
      rw [this, waitProcAux_skip cancelled fetch N (m + fuel) a hstep]
      have := ih fuel (a + 1) (fun k hk => by
        have := h (k + 1) (by omega)
        simpa [Nat.add_assoc, Nat.add_comm 1 k] using this)
      simpa [Nat.add_assoc, Nat.add_comm 1 m] using this

/-- A `waitForContainerProcessing` attempt that is a failed status
*check* (transport error, non-200, or unparseable body), as opposed to a
parsed container status. -/
def procCheckFails : ProcFetch → Prop
  | .getErr _ => True
  | .non200 _ _ => True
  | .parseErr _ => True
  | .ok _ _ => False

/-- C2 counterexample: in `waitForContainerReady` with the default
budget of 30 attempts, a first status check that fails with a transport
error aborts the whole wait immediately — one fetch, no retry — with the
wrapped check error, contrary to the claim that failed checks are
retried up to the polling attempt budget. -/
theorem C2_counterexample :
    waitForContainerReady (fun _ => false)
      (fun _ => .err (.threads (.network 0 "Network error"
        "connection refused" false))) 30
      = ⟨1, 0, some (.wrapped "failed to check container status"
          (.threads (.network 0 "Network error" "connection refused"
            false)))⟩ := by decide

/-- C2 amended: a failed status check aborts `waitForContainerReady`
immediately (one fetch, wrapped error); only the video path
`waitForContainerProcessing` retries failed checks — an arbitrary run of
failing checks below the attempt budget is ridden out and a later
`FINISHED` still succeeds. -/
theorem C2_failed_check_abort_vs_video_retry :
    (∀ (cancelled : Nat → Bool) (fetch : Nat → StatusFetch) (ma : Int)
       (e : GoError), 0 < ma → fetch 0 = .err e →
       waitForContainerReady cancelled fetch ma
         = ⟨1, 0, some (.wrapped "failed to check container status" e)⟩) ∧
    (∀ (cancelled : Nat → Bool) (fetch : Nat → ProcFetch) (N n : Nat)
       (msg : String), n < N →
       (∀ k, k < n → cancelled k = false ∧ procCheckFails (fetch k)) →
       cancelled n = false → fetch n = .ok "FINISHED" msg →
       waitForContainerProcessing cancelled fetch N = ⟨n + 1, n, none⟩) := by
  constructor
  · intro cancelled fetch ma e hma hf0
    unfold waitForContainerReady
    obtain ⟨fuel, hfuel⟩ : ∃ fuel, ma.toNat = fuel + 1 :=
      ⟨ma.toNat - 1, by omega⟩
    rw [hfuel]
    unfold waitReadyAux
    simp [hf0]
  · intro cancelled fetch N n msg hn hpre hcn hfn
    unfold waitForContainerProcessing
    obtain ⟨fuel, hfuel⟩ : ∃ fuel, N = n + (fuel + 1) :=
      ⟨N - n - 1, by omega⟩
    have hside : ∀ k, k < n → procContinues N cancelled fetch (0 + k) := by
      intro k hk
      obtain ⟨hck, hfail⟩ := hpre k hk
      refine ⟨by simpa using hck, by omega, ?_⟩
      simp only [Nat.zero_add]
      cases hfk : fetch k with
      | getErr e => trivial
      | non200 c b => trivial
      | parseErr m => trivial
      | ok s m => rw [hfk] at hfail; simp [procCheckFails] at hfail
    calc waitProcAux cancelled fetch N N 0
        = waitProcAux cancelled fetch N (n + (fuel + 1)) 0 := by rw [← hfuel]
      _ = waitProcAux cancelled fetch N (fuel + 1) (0 + n) :=
        waitProcAux_skipN cancelled fetch N n (fuel + 1) 0 hside
      _ = ⟨n + 1, n, none⟩ := by
          rw [Nat.zero_add]
          unfold waitProcAux
          simp [hcn, hfn]

/-- Witness for the amended C2: an immediately-failing check aborts a
30-attempt `waitForContainerReady` run, while a video wait whose first
two checks fail (transport error, then HTTP 500) still succeeds at the
third attempt. -/
theorem C2_witness :
    waitForContainerReady (fun _ => false)
      (fun _ => .err GoError.ctxCanceled) 30
      = ⟨1, 0, some (.wrapped "failed to check container status"
          GoError.ctxCanceled)⟩ ∧
    waitForContainerProcessing (fun _ => false)
      (fun n => if n = 0 then .getErr (.threads (.network 0 "Network error" "x" false))
        else if n = 1 then .non200 500 "oops"
        else .ok "FINISHED" "") 60
      = ⟨3, 2, none⟩ :=
  ⟨C2_failed_check_abort_vs_video_retry.1 (fun _ => false)
      (fun _ => .err GoError.ctxCanceled) 30 GoError.ctxCanceled
      (by decide) (by decide),
   C2_failed_check_abort_vs_video_retry.2 (fun _ => false)
      (fun n => if n = 0 then .getErr (.threads (.network 0 "Network error" "x" false))
        else if n = 1 then .non200 500 "oops"
        else .ok "FINISHED" "") 60 2 "" (by decide)
      (fun k hk => by interval_cases k <;> exact ⟨rfl, trivial⟩)
      (by decide) (by decide)⟩

/-! ## C3 -/

/-- C3 counterexample: with the context cancelled at every poll tick, a
3-attempt `waitForContainerReady` run over an always-`IN_PROGRESS`
container still performs all 3 fetches and all 3 poll-interval sleeps
and returns the timeout error — not a cancellation error within one
tick: its sleeps are bare `time.Sleep` calls and the loop never reads
the context. -/
theorem C3_counterexample :
    waitForContainerReady (fun _ => true) (fun _ => .ok "IN_PROGRESS" "") 3
      = ⟨3, 3, some (waitReadyTimeoutErr 3)⟩ ∧
    waitReadyTimeoutErr 3 ≠ GoError.ctxCanceled := by decide

/-- C3 amended: cancellation during the executor's backoff sleep, the
rate-limiter wait and the fixed reply-publish delay does return
`ctx.Err()` promptly, and `waitForContainerProcessing` observes
cancellation at the top of the next polling iteration; but
`waitForContainerReady` never consults the context: its result is
independent of when (or whether) the context is cancelled, so
cancellation during its poll-interval sleep does not interrupt the
wait. -/
theorem C3_cancellation_per_sleep_site :
    (∀ (cfg : RetryConfig) (rl0 : RateLimiter) (now : Int)
       (cancelled : Nat → Bool) (outcomes : Nat → Outcome) (r : Resp),
       1 ≤ cfg.maxRetries → (ShouldWait rl0 now).2 = false →
       cancelled 1 = true → outcomes 0 = .http r →
       r.statusCode = 503 → r.body = "" →
       Do cfg rl0 now false cancelled outcomes
         = ⟨none, some .ctxCanceled, 1, [], (ShouldWait rl0 now).1⟩) ∧
    (∀ (rl : RateLimiter) (now : Int), rl.rateLimited = true →
       ¬ now > rl.resetTime → Wait rl now true = (rl, some .ctxCanceled)) ∧
    (∀ (content : PostContent) (env : ReplyEnv) (cid : String),
       trimSpace content.replyTo ≠ "" → env.tokenErr = none →
       env.createContainer = .ok cid →
       CreateReply (some content) true env = .error .ctxCanceled) ∧
    (∀ (cancelled : Nat → Bool) (fetch : Nat → ProcFetch) (N fuel a : Nat),
       cancelled a = true →
       waitProcAux cancelled fetch N (fuel + 1) a
         = ⟨a, a, some .ctxCanceled⟩) ∧
    (∀ (c c' : Nat → Bool) (fetch : Nat → StatusFetch) (ma : Int),
       waitForContainerReady c fetch ma
         = waitForContainerReady c' fetch ma) := by
  refine ⟨?_, ?_, ?_, ?_, ?_⟩
  · intro cfg rl0 now cancelled outcomes r hmr hsw hc1 ho0 hst hbody
    unfold Do
    simp only [hsw, Bool.false_eq_true, if_false]
    obtain ⟨m, hm⟩ : ∃ m, cfg.maxRetries = m + 1 := ⟨cfg.maxRetries - 1, by omega⟩
    rw [hm]
    have hclass : createErrorFromResponse r (ShouldWait rl0 now).1 now
        = (.threads (.api 503 ("HTTP " ++ toString r.statusCode)
            (respDetails r) r.requestID), (ShouldWait rl0 now).1) := by
      unfold createErrorFromResponse respMessageCode
      rw [hst, hbody]
      norm_num
    have hretry : isRetryableError (.threads (.api 503
        ("HTTP " ++ toString r.statusCode) (respDetails r) r.requestID))
        = true := by
      unfold isRetryableError IsRateLimitError asNetworkTemporary asAPICode
      norm_num
    unfold doLoop
    simp only [gt_iff_lt, Nat.lt_irrefl, false_and, if_false, ho0]
    rw [hst]
    norm_num
    rw [hclass]
    simp only [hretry, Bool.not_true, Bool.false_eq_true, if_false]
    unfold doLoop
    simp [hc1]
  · intro rl now hrl hreset
    unfold Wait
    simp [hreset, hrl]
  · intro content env cid hreply htok hcreate
    unfold CreateReply
    simp [hreply, htok, hcreate]
  · intro cancelled fetch N fuel a hca
    unfold waitProcAux
    simp [hca]
  · intro c c' fetch ma
    rfl

/-- Witness for the amended C3, each site at concrete inputs: an
executor run over an always-503 endpoint cancelled before its first
retry sleep; a rate-limited `Wait` cancelled mid-sleep; a reply whose
fixed 10s delay is cancelled; a video poll cancelled at the second
iteration's top; and the `waitForContainerReady` cancellation
insensitivity at two opposite cancellation streams. -/
theorem C3_witness :
    Do ⟨3, second, 30 * second, 2⟩
        ⟨100, 100, 3600 * second, 0, 2, 300 * second, false, 0⟩ 0 false
        (fun _ => true) (fun _ => .http ⟨503, "", none, "", none⟩)
      = ⟨none, some .ctxCanceled, 1, [],
         ⟨100, 100, 3600 * second, 0, 2, 300 * second, false, 0⟩⟩ ∧
    Wait ⟨100, 0, 1000 * second, 0, 2, 300 * second, true, 900 * second⟩
        (950 * second) true
      = (⟨100, 0, 1000 * second, 0, 2, 300 * second, true, 900 * second⟩,
         some .ctxCanceled) ∧
    CreateReply (some ⟨"hi", "123", "TEXT"⟩) true
        ⟨none, .ok "c1", .ok "p1"⟩ = .error .ctxCanceled ∧
    waitProcAux (fun n => n = 1) (fun _ => .ok "IN_PROGRESS" "") 60 59 1
      = ⟨1, 1, some .ctxCanceled⟩ ∧
    waitForContainerReady (fun _ => true)
        (fun _ => .ok "IN_PROGRESS" "") 3
      = waitForContainerReady (fun _ => false)
        (fun _ => .ok "IN_PROGRESS" "") 3 :=
  ⟨C3_cancellation_per_sleep_site.1 ⟨3, second, 30 * second, 2⟩
      ⟨100, 100, 3600 * second, 0, 2, 300 * second, false, 0⟩ 0
      (fun _ => true) (fun _ => .http ⟨503, "", none, "", none⟩)
      ⟨503, "", none, "", none⟩ (by decide) (by decide) (by rfl)
      (by rfl) (by rfl) (by rfl),
   C3_cancellation_per_sleep_site.2.1
      ⟨100, 0, 1000 * second, 0, 2, 300 * second, true, 900 * second⟩
      (950 * second) (by rfl) (by decide),
   C3_cancellation_per_sleep_site.2.2.1 ⟨"hi", "123", "TEXT"⟩
      ⟨none, .ok "c1", .ok "p1"⟩ "c1" (by decide) (by rfl) (by rfl),
   C3_cancellation_per_sleep_site.2.2.2.1 (fun n => n = 1)
      (fun _ => .ok "IN_PROGRESS" "") 60 58 1 (by decide),
   C3_cancellation_per_sleep_site.2.2.2.2 (fun _ => true) (fun _ => false)
      (fun _ => .ok "IN_PROGRESS" "") 3⟩

/-! ## C4 -/

/-- In a `Do` run all of whose responses carry an error status (≥ 400),
`executeRequest` returns every response as an error, so the loop's
header-feeding branch is never reached and no snapshot is ever fed to
`UpdateFromHeaders`. -/
theorem doLoop_fed_unchanged (cfg : RetryConfig) (outcomes : Nat → Outcome)
    (cancelled : Nat → Bool) (now : Int)
    (h : ∀ n r, outcomes n = .http r → 400 ≤ r.statusCode) :
    ∀ fuel attempt delay lastErr calls fed rl,
      (doLoop cfg outcomes cancelled now fuel attempt delay lastErr calls
        fed rl).fed = fed := by
  intro fuel
  induction fuel with
  | zero => intro attempt delay lastErr calls fed rl; rfl
  | succ n ih =>
      intro attempt delay lastErr calls fed rl
      unfold doLoop
      split
      · rfl
      · cases ho : outcomes attempt with
        | transport timeout temporary msg =>
            dsimp only
            split
            · rfl
            · exact ih ..
        | http resp =>
            have hge : resp.statusCode ≥ 400 := h attempt resp ho
            dsimp only
            rw [if_pos hge]
            split
            · rfl
            · exact ih ..

/-- C4 counterexample: a response whose only rate-limit header is
`X-RateLimit-Reset` parses to a snapshot with `Limit = 0`, and
`UpdateFromHeaders` does NOT overwrite the window's limit with that 0 —
the stored limit 100 survives, contrary to "unconditionally
overwrites". -/
theorem C4_counterexample :
    parseRateLimitHeaders ⟨none, none, some 500, none⟩
      = some ⟨0, 0, some (500 * second), 0⟩ ∧
    (UpdateFromHeaders ⟨100, 50, 1000 * second, 0, 2, 300 * second, false, 0⟩
        (parseRateLimitHeaders ⟨none, none, some 500, none⟩)).limit
      = 100 := by decide

/-- C4 amended: `UpdateFromHeaders` overwrites each field only
conditionally (`limit` when the snapshot's limit is positive,
`remaining` when non-negative, `resetTime` when the reset is not the
zero time); and the executor feeds the snapshot to `UpdateFromHeaders`
only for responses whose status is below 400 — responses with an error
status are returned as errors by `executeRequest` and their headers
never reach the limiter. -/
theorem C4_conditional_update_success_only :
    (∀ (rl : RateLimiter) (i : RateLimitInfo) (t : Int),
       0 < i.limit → 0 ≤ i.remaining → i.reset = some t →
       UpdateFromHeaders rl (some i)
         = { rl with limit := i.limit, remaining := i.remaining,
                     resetTime := t }) ∧
    (∀ (rl : RateLimiter) (i : RateLimitInfo), i.limit ≤ 0 →
       (UpdateFromHeaders rl (some i)).limit = rl.limit) ∧
    (∀ (cfg : RetryConfig) (rl0 : RateLimiter) (now : Int) (preC : Bool)
       (cancelled : Nat → Bool) (outcomes : Nat → Outcome),
       (∀ n r, outcomes n = .http r → 400 ≤ r.statusCode) →
       (Do cfg rl0 now preC cancelled outcomes).fed = []) ∧
    (∀ (cfg : RetryConfig) (rl0 : RateLimiter) (now : Int)
       (cancelled : Nat → Bool) (outcomes : Nat → Outcome) (r : Resp)
       (i : RateLimitInfo),
       (ShouldWait rl0 now).2 = false → outcomes 0 = .http r →
       r.statusCode < 400 → r.rateLimit = some i →
       (Do cfg rl0 now false cancelled outcomes).fed = [i] ∧
       (Do cfg rl0 now false cancelled outcomes).rl
         = UpdateFromHeaders (ShouldWait rl0 now).1 (some i)) := by
  refine ⟨?_, ?_, ?_, ?_⟩
  · intro rl i t h1 h2 h3
    unfold UpdateFromHeaders
    simp [h1, h2, h3]
  · intro rl i h1
    unfold UpdateFromHeaders
    have : ¬ i.limit > 0 := by omega
    simp only [this, if_false]
    split <;> (split <;> rfl)
  · intro cfg rl0 now preC cancelled outcomes h
    unfold Do
    dsimp only
    split
    · split
      · rfl
      · exact doLoop_fed_unchanged cfg outcomes cancelled now h ..
    · exact doLoop_fed_unchanged cfg outcomes cancelled now h ..
  · intro cfg rl0 now cancelled outcomes r i hsw ho0 hlt hrli
    have hnotretry : shouldRetryStatus r.statusCode = false := by
      unfold shouldRetryStatus
      simp only [decide_eq_false_iff_not]
      omega
    have hnotge : ¬ r.statusCode ≥ 400 := by omega
    unfold Do
    simp only [hsw, Bool.false_eq_true, if_false]
    unfold doLoop
    simp [ho0, hnotge, hrli, hnotretry]

/-- Witness for the amended C4: a full snapshot overwrites all three
fields; a reset-only snapshot leaves the limit alone; an always-503 run
feeds nothing; a first-attempt 200 carrying a snapshot feeds exactly
it. -/
theorem C4_witness :
    UpdateFromHeaders ⟨100, 50, 1000 * second, 0, 2, 300 * second, false, 0⟩
        (some ⟨200, 17, some (800 * second), 0⟩)
      = ⟨200, 17, 800 * second, 0, 2, 300 * second, false, 0⟩ ∧
    (UpdateFromHeaders ⟨100, 50, 1000 * second, 0, 2, 300 * second, false, 0⟩
        (some ⟨0, 0, some (500 * second), 0⟩)).limit = 100 ∧
    (Do ⟨3, second, 30 * second, 2⟩
        ⟨100, 100, 3600 * second, 0, 2, 300 * second, false, 0⟩ 0 false
        (fun _ => false) (fun _ => .http ⟨503, "", none, "", none⟩)).fed
      = [] ∧
    (Do ⟨3, second, 30 * second, 2⟩
        ⟨100, 100, 3600 * second, 0, 2, 300 * second, false, 0⟩ 0 false
        (fun _ => false)
        (fun _ => .http ⟨200, "{}", none, "",
          some ⟨200, 17, some (800 * second), 0⟩⟩)).fed
      = [⟨200, 17, some (800 * second), 0⟩] :=
  ⟨C4_conditional_update_success_only.1
      ⟨100, 50, 1000 * second, 0, 2, 300 * second, false, 0⟩
      ⟨200, 17, some (800 * second), 0⟩ (800 * second)
      (by decide) (by decide) (by rfl),
   C4_conditional_update_success_only.2.1
      ⟨100, 50, 1000 * second, 0, 2, 300 * second, false, 0⟩
      ⟨0, 0, some (500 * second), 0⟩ (by decide),
   C4_conditional_update_success_only.2.2.1 ⟨3, second, 30 * second, 2⟩
      ⟨100, 100, 3600 * second, 0, 2, 300 * second, false, 0⟩ 0 false
      (fun _ => false) (fun _ => .http ⟨503, "", none, "", none⟩)
      (fun n r hr => by cases hr; decide),
   (C4_conditional_update_success_only.2.2.2 ⟨3, second, 30 * second, 2⟩
      ⟨100, 100, 3600 * second, 0, 2, 300 * second, false, 0⟩ 0
      (fun _ => false)
      (fun _ => .http ⟨200, "{}", none, "",
        some ⟨200, 17, some (800 * second), 0⟩⟩)
      ⟨200, "{}", none, "", some ⟨200, 17, some (800 * second), 0⟩⟩
      ⟨200, 17, some (800 * second), 0⟩
      (by decide) (by rfl) (by decide) (by rfl)).1⟩

/-! ## C5 -/

/-- `errors.As(err, &*RateLimitError)` returning the `RetryAfter`
field. -/
def asRetryAfter : GoError → Option Int
  | .threads (.rateLimit _ _ _ ra) => some ra
  | .wrapped _ inner => asRetryAfter inner
  | _ => none

/-- The `RetryAfter` field of any snapshot `parseRateLimitHeaders`
returns comes straight from the `Retry-After` header (0 when absent). -/
theorem parseRateLimitHeaders_retryAfter (h : Headers) (i : RateLimitInfo)
    (hp : parseRateLimitHeaders h = some i) :
    i.retryAfter = (h.retryAfter.getD 0) * second := by
  unfold parseRateLimitHeaders at hp
  dsimp only at hp
  split at hp
  · simp at hp
  · cases hp; rfl

/-- C5 counterexample: a 429 whose only rate-limit header is
`Retry-After: 5` produces a RateLimit error with retry-after 0, not 5
seconds: `parseRateLimitHeaders` drops a snapshot carrying only
`Retry-After` (its nil check ignores that field), so the classifier sees
no snapshot at all. -/
theorem C5_counterexample :
    parseRateLimitHeaders ⟨none, none, none, some 5⟩ = none ∧
    (createErrorFromResponse
        ⟨429, "", none, "", parseRateLimitHeaders ⟨none, none, none, some 5⟩⟩
        ⟨100, 50, 1000 * second, 0, 2, 300 * second, false, 0⟩ 0).1
      = .threads (.rateLimit 429 "HTTP 429" "" 0) ∧
    (5 : Int) * second ≠ 0 := by decide

/-- C5 amended: a 429 always classifies as a RateLimit error; its
retry-after equals the `Retry-After` header's value only when the parsed
snapshot is non-nil — i.e. at least one of `X-RateLimit-Limit`,
`X-RateLimit-Remaining`, `X-RateLimit-Reset` is also present — and the
value is positive; the reset header feeds only `MarkRateLimited`'s reset
time, never the error's retry-after; in every other case (snapshot nil,
including a lone `Retry-After` header, or `Retry-After` absent)
retry-after is 0. -/
theorem C5_retry_after_from_header_only_with_snapshot :
    ∀ (h : Headers) (resp : Resp) (rl : RateLimiter) (now : Int),
      resp.statusCode = 429 → resp.rateLimit = parseRateLimitHeaders h →
      IsRateLimitError (createErrorFromResponse resp rl now).1 = true ∧
      asRetryAfter (createErrorFromResponse resp rl now).1
        = some (match parseRateLimitHeaders h with
                | some i => if 0 < i.retryAfter then i.retryAfter else 0
                | none => 0) ∧
      (h.retryAfter = none →
        asRetryAfter (createErrorFromResponse resp rl now).1 = some 0) ∧
      (h.xRateLimitLimit = none → h.xRateLimitRemaining = none →
        h.xRateLimitReset = none →
        asRetryAfter (createErrorFromResponse resp rl now).1 = some 0) := by
  intro h resp rl now hst hrl
  have h401 : ¬ (resp.statusCode = 401 ∨ resp.statusCode = 403) := by omega
  have hra : (createErrorFromResponse resp rl now).1
      = .threads (.rateLimit (respMessageCode resp).2 (respMessageCode resp).1
          (respDetails resp)
          (match parseRateLimitHeaders h with
           | some i => if 0 < i.retryAfter then i.retryAfter else 0
           | none => 0)) := by
    unfold createErrorFromResponse
    rw [if_neg h401, if_pos hst, hrl]
  refine ⟨by rw [hra]; rfl, by rw [hra]; rfl, ?_, ?_⟩
  · intro hnone
    have hz : (match parseRateLimitHeaders h with
        | some i => if 0 < i.retryAfter then i.retryAfter else 0
        | none => 0) = (0 : Int) := by
      cases hp : parseRateLimitHeaders h with
      | none => rfl
      | some i =>
          have hri := parseRateLimitHeaders_retryAfter h i hp
          rw [hnone] at hri
          simp only [Option.getD_none, Int.zero_mul] at hri
          simp [hri]
    rw [hra, hz]
    rfl
  · intro h1 h2 h3
    have hp : parseRateLimitHeaders h = none := by
      unfold parseRateLimitHeaders
      simp [h1, h2, h3]
    rw [hra, hp]
    rfl

/-- Witness for the amended C5: a 429 carrying `Retry-After: 7` together
with `X-RateLimit-Remaining: 10` yields retry-after 7s; one carrying
only `X-RateLimit-Reset` (no `Retry-After`) yields 0; one carrying only
`Retry-After: 5` also yields 0. -/
theorem C5_witness :
    asRetryAfter (createErrorFromResponse
        ⟨429, "", none, "", parseRateLimitHeaders ⟨none, some 10, none, some 7⟩⟩
        ⟨100, 50, 1000 * second, 0, 2, 300 * second, false, 0⟩ 0).1
      = some (7 * second) ∧
    asRetryAfter (createErrorFromResponse
        ⟨429, "", none, "", parseRateLimitHeaders ⟨none, none, some 800, none⟩⟩
        ⟨100, 50, 1000 * second, 0, 2, 300 * second, false, 0⟩ 0).1
      = some 0 ∧
    asRetryAfter (createErrorFromResponse
        ⟨429, "", none, "", parseRateLimitHeaders ⟨none, none, none, some 5⟩⟩
        ⟨100, 50, 1000 * second, 0, 2, 300 * second, false, 0⟩ 0).1
      = some 0 :=
  ⟨by
    have h := (C5_retry_after_from_header_only_with_snapshot
      ⟨none, some 10, none, some 7⟩
      ⟨429, "", none, "", parseRateLimitHeaders ⟨none, some 10, none, some 7⟩⟩
      ⟨100, 50, 1000 * second, 0, 2, 300 * second, false, 0⟩ 0
      (by rfl) (by rfl)).2.1
    rw [h]
    decide,
   (C5_retry_after_from_header_only_with_snapshot
      ⟨none, none, some 800, none⟩
      ⟨429, "", none, "", parseRateLimitHeaders ⟨none, none, some 800, none⟩⟩
      ⟨100, 50, 1000 * second, 0, 2, 300 * second, false, 0⟩ 0
      (by rfl) (by rfl)).2.2.1 (by rfl),
   (C5_retry_after_from_header_only_with_snapshot
      ⟨none, none, none, some 5⟩
      ⟨429, "", none, "", parseRateLimitHeaders ⟨none, none, none, some 5⟩⟩
      ⟨100, 50, 1000 * second, 0, 2, 300 * second, false, 0⟩ 0
      (by rfl) (by rfl)).2.2.2 (by rfl) (by rfl) (by rfl)⟩

/-! ## C6 -/

/-- An outcome stream in which every physical call yields a 503 whose
classified code stays in the retryable 5xx band (i.e. the body does not
override the code to a non-5xx value). -/
def always503 (outcomes : Nat → Outcome) : Prop :=
  ∀ n, ∃ r, outcomes n = .http r ∧ r.statusCode = 503 ∧
    500 ≤ (respMessageCode r).2 ∧ (respMessageCode r).2 < 600

/-- Classifying a 503 response yields an `APIError` with the extracted
code and leaves the rate limiter untouched. -/
theorem createErrorFromResponse_503 (r : Resp) (rl : RateLimiter)
    (now : Int) (hst : r.statusCode = 503) :
    createErrorFromResponse r rl now
      = (.threads (.api (respMessageCode r).2 (respMessageCode r).1
          (respDetails r) r.requestID), rl) := by
  unfold createErrorFromResponse
  rw [hst]
  norm_num

/-- An `APIError` whose code is in `[500, 600)` is retryable. -/
theorem isRetryableError_api_5xx (c : Int) (m d q : String)
    (hc1 : 500 ≤ c) (hc2 : c < 600) :
    isRetryableError (.threads (.api c m d q)) = true := by
  unfold isRetryableError IsRateLimitError asNetworkTemporary asAPICode
  simp [hc1, hc2]

/-- Against an always-retryable-503 endpoint, every remaining attempt is
consumed and the loop ends in the attempt-count wrapper around the last
classified `APIError`, with the limiter state unchanged. -/
theorem doLoop_always503 (cfg : RetryConfig) (outcomes : Nat → Outcome)
    (now : Int) (h : always503 outcomes) :
    ∀ fuel attempt delay lastErr calls fed rl, ∃ e,
      doLoop cfg outcomes (fun _ => false) now (fuel + 1) attempt delay
        lastErr calls fed rl
        = ⟨none, some (.wrapped ("request failed after "
            ++ toString cfg.maxRetries ++ " retries") e),
           calls + (fuel + 1), fed, rl⟩ ∧ IsAPIError e = true := by
  intro fuel
  induction fuel with
  | zero =>
      intro attempt delay lastErr calls fed rl
      obtain ⟨r, hr, hst, hc1, hc2⟩ := h attempt
      refine ⟨.threads (.api (respMessageCode r).2 (respMessageCode r).1
        (respDetails r) r.requestID), ?_, rfl⟩
      unfold doLoop
      simp only [hr, Bool.false_eq_true, and_false, if_false]
      rw [createErrorFromResponse_503 r rl now hst]
      have hge : r.statusCode ≥ 400 := by omega
      simp only [hge, if_true,
        isRetryableError_api_5xx _ _ _ _ hc1 hc2, Bool.not_true,
        Bool.false_eq_true, if_false]
      unfold doLoop
      rfl
  | succ m ih =>
      intro attempt delay lastErr calls fed rl
      obtain ⟨r, hr, hst, hc1, hc2⟩ := h attempt
      obtain ⟨e, he, hapi⟩ := ih (attempt + 1)
        (if attempt > 0 then nextDelay cfg delay else delay)
        (some (.threads (.api (respMessageCode r).2 (respMessageCode r).1
          (respDetails r) r.requestID))) (calls + 1) fed rl
      refine ⟨e, ?_, hapi⟩
      unfold doLoop
      simp only [hr, Bool.false_eq_true, and_false, if_false]
      rw [createErrorFromResponse_503 r rl now hst]
      have hge : r.statusCode ≥ 400 := by omega
      simp only [hge, if_true,
        isRetryableError_api_5xx _ _ _ _ hc1 hc2, Bool.not_true,
        Bool.false_eq_true, if_false]
      rw [he]
      have : calls + 1 + (m + 1) = calls + (m + 1 + 1) := by omega
      rw [this]

/-- C6 counterexample: an endpoint that answers 503 on every call, but
whose body parses to an error envelope with message "boom" and code 42,
is classified as a non-5xx `APIError` and hence non-retryable: the
executor makes exactly 1 physical call, not 4, even with
`maxRetries = 3`.  (The final error does still satisfy the API-kind
check.) -/
theorem C6_counterexample :
    (Do ⟨3, second, 30 * second, 2⟩
        ⟨100, 100, 3600 * second, 0, 2, 300 * second, false, 0⟩ 0 false
        (fun _ => false)
        (fun _ => .http ⟨503, "\x7b\"error\":\x7b\"message\":\"boom\",\"code\":42\x7d\x7d",
          some ⟨"boom", 42⟩, "", none⟩)).calls = 1 ∧
    (Do ⟨3, second, 30 * second, 2⟩
        ⟨100, 100, 3600 * second, 0, 2, 300 * second, false, 0⟩ 0 false
        (fun _ => false)
        (fun _ => .http ⟨503, "\x7b\"error\":\x7b\"message\":\"boom\",\"code\":42\x7d\x7d",
          some ⟨"boom", 42⟩, "", none⟩)).err
      = some (.threads (.api 42 "boom"
          "\x7b\"error\":\x7b\"message\":\"boom\",\"code\":42\x7d\x7d" "")) ∧
    (1 : Nat) ≠ 4 := by decide

/-- C6 amended: with `maxRetries = 3`, a request against an endpoint
answering 503 on every call — provided the bodies do not override the
classified code to a non-5xx value — makes exactly 4 physical calls and
returns a wrapped error that still satisfies `IsAPIError`; a 503 whose
body overrides the code outside `[500, 600)` is non-retryable and
returns after a single call (still an API error). -/
theorem C6_retry_budget (cfg : RetryConfig) (rl0 : RateLimiter) (now : Int)
    (outcomes : Nat → Outcome) (hmr : cfg.maxRetries = 3)
    (hsw : (ShouldWait rl0 now).2 = false) (h : always503 outcomes) :
    (Do cfg rl0 now false (fun _ => false) outcomes).calls = 4 ∧
    ∃ e, (Do cfg rl0 now false (fun _ => false) outcomes).err = some e ∧
      IsAPIError e = true := by
  obtain ⟨e, he, hapi⟩ := doLoop_always503 cfg outcomes now h 3 0
    cfg.initialDelay none 0 [] (ShouldWait rl0 now).1
  have hdo : Do cfg rl0 now false (fun _ => false) outcomes
      = doLoop cfg outcomes (fun _ => false) now (cfg.maxRetries + 1) 0
          cfg.initialDelay none 0 [] (ShouldWait rl0 now).1 := by
    unfold Do
    simp only [hsw, Bool.false_eq_true, if_false]
  rw [hdo, hmr, he]
  exact ⟨rfl, ⟨.wrapped ("request failed after " ++ toString cfg.maxRetries
    ++ " retries") e, rfl, by simp only [IsAPIError]; exact hapi⟩⟩

/-- Witness for the amended C6: a plain 503 endpoint (empty bodies)
under `maxRetries = 3` costs exactly 4 calls and ends in an API
error. -/
theorem C6_witness :
    (Do ⟨3, second, 30 * second, 2⟩
        ⟨100, 100, 3600 * second, 0, 2, 300 * second, false, 0⟩ 0 false
        (fun _ => false)
        (fun _ => .http ⟨503, "", none, "", none⟩)).calls = 4 ∧
    ∃ e, (Do ⟨3, second, 30 * second, 2⟩
        ⟨100, 100, 3600 * second, 0, 2, 300 * second, false, 0⟩ 0 false
        (fun _ => false)
        (fun _ => .http ⟨503, "", none, "", none⟩)).err = some e ∧
      IsAPIError e = true :=
  C6_retry_budget ⟨3, second, 30 * second, 2⟩
    ⟨100, 100, 3600 * second, 0, 2, 300 * second, false, 0⟩ 0
    (fun _ => .http ⟨503, "", none, "", none⟩) (by decide) (by decide)
    (fun n => ⟨⟨503, "", none, "", none⟩, rfl, rfl, by decide, by decide⟩)

/-! ## C7 -/

/-- Every delay in a validated-config backoff sequence is non-negative
and capped at `MaxDelay`. -/
theorem retryDelay_nonneg_le_max (cfg : RetryConfig)
    (h0 : 0 < cfg.initialDelay) (h1 : cfg.initialDelay ≤ cfg.maxDelay)
    (hf : 1 < cfg.backoffFactor) (n : Nat) :
    0 ≤ retryDelay cfg n ∧ retryDelay cfg n ≤ cfg.maxDelay := by
  induction n with
  | zero => exact ⟨le_of_lt h0, h1⟩
  | succ m ih =>
      obtain ⟨ha, hb⟩ := ih
      constructor
      · show 0 ≤ nextDelay cfg (retryDelay cfg m)
        unfold nextDelay
        dsimp only
        split
        · exact le_trans (le_of_lt h0) h1
        · apply Int.floor_nonneg.mpr
          have hfq : (0 : ℚ) ≤ cfg.backoffFactor := by linarith
          have haq : (0 : ℚ) ≤ (retryDelay cfg m : ℚ) := by exact_mod_cast ha
          exact mul_nonneg haq hfq
      · show nextDelay cfg (retryDelay cfg m) ≤ cfg.maxDelay
        unfold nextDelay
        dsimp only
        split
        · exact le_refl _
        · omega

/-- C7: with a validated retry configuration (`0 < InitialDelay ≤
MaxDelay`) and `BackoffFactor > 1`, the backoff delays are
non-decreasing and never exceed `MaxDelay`; and with the default
configuration (1s initial delay, factor 2, 30s cap) the successive
delays are 1s, 2s, 4s, 8s, 16s, 30s, 30s. -/
theorem C7_backoff_monotone_capped (cfg : RetryConfig)
    (h0 : 0 < cfg.initialDelay) (h1 : cfg.initialDelay ≤ cfg.maxDelay)
    (hf : 1 < cfg.backoffFactor) :
    (∀ n, retryDelay cfg n ≤ retryDelay cfg (n + 1) ∧
      retryDelay cfg n ≤ cfg.maxDelay) ∧
    (List.range 7).map (retryDelay ⟨3, second, 30 * second, 2⟩)
      = [second, 2 * second, 4 * second, 8 * second, 16 * second,
         30 * second, 30 * second] := by
  constructor
  · intro n
    obtain ⟨ha, hb⟩ := retryDelay_nonneg_le_max cfg h0 h1 hf n
    refine ⟨?_, hb⟩
    show retryDelay cfg n ≤ nextDelay cfg (retryDelay cfg n)
    unfold nextDelay
    dsimp only
    split
    · exact hb
    · apply Int.le_floor.mpr
      have hfq : (1 : ℚ) ≤ cfg.backoffFactor := le_of_lt hf
      have haq : (0 : ℚ) ≤ (retryDelay cfg n : ℚ) := by exact_mod_cast ha
      calc ((retryDelay cfg n : ℤ) : ℚ)
          = (retryDelay cfg n : ℚ) * 1 := by rw [mul_one]
        _ ≤ (retryDelay cfg n : ℚ) * cfg.backoffFactor :=
            mul_le_mul_of_nonneg_left hfq haq
  · have d0 : retryDelay ⟨3, second, 30 * second, 2⟩ 0 = second := rfl
    have d1 : retryDelay ⟨3, second, 30 * second, 2⟩ 1 = 2 * second := by
      show nextDelay _ (retryDelay ⟨3, second, 30 * second, 2⟩ 0) = _
      rw [d0]; simp only [nextDelay, second]; norm_num
    have d2 : retryDelay ⟨3, second, 30 * second, 2⟩ 2 = 4 * second := by
      show nextDelay _ (retryDelay ⟨3, second, 30 * second, 2⟩ 1) = _
      rw [d1]; simp only [nextDelay, second]; norm_num
    have d3 : retryDelay ⟨3, second, 30 * second, 2⟩ 3 = 8 * second := by
      show nextDelay _ (retryDelay ⟨3, second, 30 * second, 2⟩ 2) = _
      rw [d2]; simp only [nextDelay, second]; norm_num
    have d4 : retryDelay ⟨3, second, 30 * second, 2⟩ 4 = 16 * second := by
      show nextDelay _ (retryDelay ⟨3, second, 30 * second, 2⟩ 3) = _
      rw [d3]; simp only [nextDelay, second]; norm_num
    have d5 : retryDelay ⟨3, second, 30 * second, 2⟩ 5 = 30 * second := by
      show nextDelay _ (retryDelay ⟨3, second, 30 * second, 2⟩ 4) = _
      rw [d4]; simp only [nextDelay, second]; norm_num
    have d6 : retryDelay ⟨3, second, 30 * second, 2⟩ 6 = 30 * second := by
      show nextDelay _ (retryDelay ⟨3, second, 30 * second, 2⟩ 5) = _
      rw [d5]; simp only [nextDelay, second]; norm_num
    have hr : List.range 7 = [0, 1, 2, 3, 4, 5, 6] := by decide
    rw [hr]
    simp only [List.map_cons, List.map_nil]
    rw [d0, d1, d2, d3, d4, d5, d6]

/-- Witness for C7 at the default configuration: one monotone step at
the cap boundary together with the concrete 7-delay table. -/
theorem C7_witness :
    (0 : Int) < second ∧ second ≤ 30 * second ∧ (1 : ℚ) < 2 ∧
    (retryDelay ⟨3, second, 30 * second, 2⟩ 4
        ≤ retryDelay ⟨3, second, 30 * second, 2⟩ 5 ∧
      retryDelay ⟨3, second, 30 * second, 2⟩ 4 ≤ 30 * second) ∧
    (List.range 7).map (retryDelay ⟨3, second, 30 * second, 2⟩)
      = [second, 2 * second, 4 * second, 8 * second, 16 * second,
         30 * second, 30 * second] :=
  ⟨by decide, by decide, by decide,
   (C7_backoff_monotone_capped ⟨3, second, 30 * second, 2⟩
     (by decide) (by decide) (by decide)).1 4,
   (C7_backoff_monotone_capped ⟨3, second, 30 * second, 2⟩
     (by decide) (by decide) (by decide)).2⟩

/-! ## C8 -/

/-- C8 counterexample: the timeout error `waitForContainerReady`
produces on an always-`IN_PROGRESS` container is a plain `fmt.Errorf`
value — it satisfies NONE of the five kind predicates, so the predicates
are not exhaustive over the errors the core returns. -/
theorem C8_counterexample :
    (waitForContainerReady (fun _ => false) (fun _ => .ok "IN_PROGRESS" "") 1).err
      = some (waitReadyTimeoutErr 1) ∧
    IsAuthenticationError (waitReadyTimeoutErr 1) = false ∧
    IsRateLimitError (waitReadyTimeoutErr 1) = false ∧
    IsValidationError (waitReadyTimeoutErr 1) = false ∧
    IsNetworkError (waitReadyTimeoutErr 1) = false ∧
    IsAPIError (waitReadyTimeoutErr 1) = false := by decide

/-- C8 amended: the five kind predicates are mutually exclusive on every
error value (at most one holds), and every error produced by the HTTP
classifier (`createErrorFromResponse`, `wrapNetworkError`) satisfies
exactly one of them — but they are not exhaustive over all core-produced
errors: `waitForContainerReady`'s terminal failures are plain formatted
errors satisfying none. -/
theorem C8_exclusive_classifier_exhaustive (e : GoError) (resp : Resp)
    (rl : RateLimiter) (now : Int) (timeout temporary : Bool)
    (msg : String) :
    kindCount e ≤ 1 ∧
    kindCount (createErrorFromResponse resp rl now).1 = 1 ∧
    kindCount (wrapNetworkError timeout temporary msg) = 1 := by
  refine ⟨kindCount_le_one e, ?_, ?_⟩
  · unfold createErrorFromResponse
    dsimp only
    split
    · rfl
    · split
      · rfl
      · split <;> rfl
  · unfold wrapNetworkError
    split
    · rfl
    · split <;> rfl

/-! ## C9 -/

/-- `ShouldWait` answers `false` on any state whose `rateLimited` flag
is down, whatever the current instant. -/
theorem shouldWait_false_of_flag_down (s : RateLimiter) (t : Int)
    (hs : s.rateLimited = false) : (ShouldWait s t).2 = false := by
  unfold ShouldWait
  dsimp only
  split <;> simp [hs]

/-- C9: whenever `Wait` returns without error — through the
window-reset branch, the not-rate-limited branch, or after a completed
(uncancelled) sleep — the resulting state has `rateLimited = false`, so
`ShouldWait` on that state answers `false` at every instant. -/
theorem C9_wait_success_clears_flag (rl : RateLimiter) (now : Int)
    (c : Bool) (h : (Wait rl now c).2 = none) :
    (Wait rl now c).1.rateLimited = false ∧
    ∀ t, (ShouldWait (Wait rl now c).1 t).2 = false := by
  have hflag : (Wait rl now c).1.rateLimited = false := by
    unfold Wait at h ⊢
    dsimp only at h ⊢
    split_ifs at h ⊢ with h1 h2 h3
    all_goals first
      | rfl
      | simpa using h2
      | simp at h
  exact ⟨hflag, fun t => shouldWait_false_of_flag_down _ t hflag⟩

/-- Witness for C9: a never-rate-limited window at instant 0 returns
from `Wait` without error, its flag stays down and `ShouldWait` (probed
at instant 42) answers `false`. -/
theorem C9_witness :
    (Wait ⟨100, 100, 3600 * second, 0, 2, 300 * second, false, 0⟩ 0
      false).2 = none ∧
    (Wait ⟨100, 100, 3600 * second, 0, 2, 300 * second, false, 0⟩ 0
      false).1.rateLimited = false ∧
    (ShouldWait (Wait ⟨100, 100, 3600 * second, 0, 2, 300 * second,
      false, 0⟩ 0 false).1 42).2 = false :=
  ⟨by decide,
   (C9_wait_success_clears_flag
     ⟨100, 100, 3600 * second, 0, 2, 300 * second, false, 0⟩ 0 false
     (by decide)).1,
   (C9_wait_success_clears_flag
     ⟨100, 100, 3600 * second, 0, 2, 300 * second, false, 0⟩ 0 false
     (by decide)).2 42⟩

end ThreadsGo
